import Mathlib

/-!
Shallow embedding of `src/main.rs` from the statesAndCollisions example
repository: the `MyStates` gating enum, the `expectations` scene builder,
the `movement` kinematic controller system, the `change_text_system`
diagnostics overlay updater and the `infotext_system` startup spawner.
Floating-point scalars are embedded as rationals; fallible engine calls
(`expect`, `unwrap`, `single_mut`, slice indexing) are embedded as
`Except String`.
-/

namespace StatesCollisions

/-- 3-component vector, embedding Bevy `Vec3` over rationals. -/
structure Vec3 where
  x : ℚ
  y : ℚ
  z : ℚ
  deriving DecidableEq, Repr

/-- The key codes read by the `movement` system. -/
inductive KeyCode
  | Right
  | Left
  | Down
  | Up
  | W
  | S
  deriving DecidableEq, Repr

/-- The `Input<KeyCode>` resource: per-frame pressed and just-pressed key
state, as exposed by the engine's input source. -/
structure Input where
  pressed : KeyCode → Bool
  just_pressed : KeyCode → Bool

/-- The `KinematicCharacterController` component: the skin offset set at
spawn time and the pending-displacement slot written each frame. -/
structure KinematicCharacterController where
  offset : ℚ
  translation : Option Vec3
  deriving DecidableEq, Repr

/-- The body of `movement` after `query.single_mut()` succeeds: builds the
frame's desired displacement from a zero-initialised local `translation`,
mutating it per key state, then rescales the vertical component. -/
def movement (input : Input) (dt : ℚ) : Vec3 :=
  let t : Vec3 := ⟨0, 0, 0⟩
  let t := if input.pressed .Right then { t with x := t.x + dt * 5 } else t
  let t := if input.pressed .Left then { t with x := t.x + dt * 5 * (-1) } else t
  let t := if input.pressed .Down then { t with z := t.z + dt * 5 } else t
  let t := if input.pressed .Up then { t with z := t.z + dt * 5 * (-1) } else t
  let t := if input.just_pressed .W then { t with y := t.y + dt * 10 * 1 } else t
  let t := if input.just_pressed .S then { t with y := t.y + dt * 10 * (-1) } else t
  { t with y := dt * 10 * (t.y - 10) }

/-- The value the local `translation.y` holds immediately before the final
vertical formula of `movement`: only that frame's jump/crouch edge biases. -/
def verticalAccumulator (input : Input) (dt : ℚ) : ℚ :=
  (if input.just_pressed .W then dt * 10 * 1 else 0) +
    (if input.just_pressed .S then dt * 10 * (-1) else 0)

/-- Input state with no key pressed and no edge. -/
def noInput : Input :=
  ⟨fun _ => false, fun _ => false⟩

/-- Input state on the frame the W (jump) key becomes pressed. -/
def jumpEdgeInput : Input where
  pressed := fun k => match k with | .W => true | _ => false
  just_pressed := fun k => match k with | .W => true | _ => false

/-- Input state with Left, Right, Up and Down all held, no edges. -/
def allDirsInput : Input where
  pressed := fun k => match k with | .W => false | .S => false | _ => true
  just_pressed := fun _ => false

/-- The spec's persisted-accumulator reading of the vertical policy, for
comparison with the source's `movement`: a vertical accumulator that
survives from frame to frame, receives the edge biases, and feeds the
final vertical formula. Returns (frame displacement, new accumulator). -/
def movementPersistedStep (acc : ℚ) (input : Input) (dt : ℚ) : ℚ × ℚ :=
  let acc := acc + (if input.just_pressed .W then dt * 10 * 1 else 0) +
    (if input.just_pressed .S then dt * 10 * (-1) else 0)
  (dt * 10 * (acc - 10), acc)

/-- An opaque loaded mesh asset (vertex data is irrelevant to the claims). -/
structure Mesh where
  id : ℕ
  deriving DecidableEq, Repr

/-- The collider shapes attached by `expectations`. -/
inductive Collider
  | trimesh : Mesh → Collider
  | ball : ℚ → Collider
  | cuboid : ℚ → ℚ → ℚ → Collider
  deriving DecidableEq, Repr

/-- Whether a collider is a cuboid (cube) shape. -/
def Collider.isCuboid : Collider → Bool
  | .cuboid _ _ _ => true
  | _ => false

/-- Rigid-body kinds attached by `expectations`. -/
inductive RigidBodyKind
  | Fixed
  | Dynamic
  deriving DecidableEq, Repr

/-- One entity spawned by `expectations`, recording the physics-relevant
components it is given (fields left `none` when the component is absent). -/
structure SpawnedBody where
  transform : Option Vec3
  rigidBody : Option RigidBodyKind
  collider : Option Collider
  gravityScale : Option ℚ
  externalForce : Option (Vec3 × Vec3)
  externalImpulse : Option (Vec3 × Vec3)
  controllerOffset : Option ℚ
  density : Option ℚ
  deriving DecidableEq, Repr

/-- A spawned body with no components yet. -/
def emptyBody : SpawnedBody :=
  ⟨none, none, none, none, none, none, none, none⟩

/-- The scene populated by `expectations`: the fixed floor, the camera, the
ambient light brightness, the dynamic falling box, the force/impulse body
and the kinematically controlled character. -/
structure Scene where
  floorBody : SpawnedBody
  cameraTransform : Vec3
  ambientBrightness : ℚ
  dynamicBox : SpawnedBody
  forceBody : SpawnedBody
  character : SpawnedBody
  deriving DecidableEq, Repr

/-- The `expectations` scene builder (the OnEnter(Next) system). Inputs are
the floor mesh looked up in the mesh assets (`none` when unresolvable) and
the physics plugin's trimesh conversion (`none` on conversion failure);
`expect`/`unwrap` panics are embedded as `Except.error`. -/
def expectations (floorAsset : Option Mesh) (from_bevy_mesh : Mesh → Option Collider) :
    Except String Scene :=
  match floorAsset with
  | none => Except.error "Image should be added to its asset resource"
  | some floor =>
  match from_bevy_mesh floor with
  | none => Except.error "called Option::unwrap() on a None value"
  | some x_shape =>
  Except.ok
    { floorBody := { emptyBody with
        transform := some ⟨0, 0, 0⟩
        rigidBody := some .Fixed
        collider := some x_shape }
      cameraTransform := ⟨0, 3, 10⟩
      ambientBrightness := 1
      dynamicBox := { emptyBody with
        transform := some ⟨0, 5, 0⟩
        rigidBody := some .Dynamic
        gravityScale := some (1 / 2)
        collider := some (.ball 1) }
      forceBody := { emptyBody with
        rigidBody := some .Dynamic
        externalForce := some (⟨10, 20, 30⟩, ⟨1, 2, 3⟩)
        externalImpulse := some (⟨1, 2, 3⟩, ⟨1 / 10, 2 / 10, 3 / 10⟩) }
      character := { emptyBody with
        transform := some ⟨3 / 2, 2, 1⟩
        collider := some (.cuboid (9 / 10) (9 / 10) (9 / 10))
        controllerOffset := some (1 / 10)
        density := some 199 } }

/-- A sample resolvable floor mesh. -/
def sampleMesh : Mesh :=
  ⟨0⟩

/-- A trimesh conversion that succeeds, as the physics plugin's conversion
does on non-degenerate mesh geometry. -/
def sampleConv (m : Mesh) : Option Collider :=
  some (.trimesh m)

/-- Embedding of `Query::single_mut`: panics unless the query matches
exactly one entity. -/
def singleMut {α : Type} : List α → Except String α
  | [a] => Except.ok a
  | [] => Except.error "single_mut called on a query with no matching entities"
  | _ => Except.error "single_mut called on a query with multiple matching entities"

/-- The whole `movement` system: `single_mut` over the controller query,
then the displacement written into the controller's translation slot. -/
def movement_system (controllers : List KinematicCharacterController)
    (input : Input) (dt : ℚ) : Except String (List KinematicCharacterController) := do
  let player ← singleMut controllers
  Except.ok [{ player with translation := some (movement input dt) }]

/-- Component-wise characterisation of `movement`: each axis is the sum of
the contributions of the keys affecting it. -/
theorem movement_eq (input : Input) (dt : ℚ) :
    movement input dt =
      ⟨(if input.pressed .Right then dt * 5 else 0) +
          (if input.pressed .Left then dt * 5 * (-1) else 0),
        dt * 10 * (verticalAccumulator input dt - 10),
        (if input.pressed .Down then dt * 5 else 0) +
          (if input.pressed .Up then dt * 5 * (-1) else 0)⟩ := by
  simp only [movement, verticalAccumulator]
  split_ifs <;> simp

/-- Claim C1: every frame, `movement` writes a vertical displacement equal
to dt * 10 * (verticalAccumulator - 10), where the accumulator holds only
that frame's jump/crouch edge biases; with no jump/crouch edge and dt = 1
the vertical displacement is exactly -100. -/
theorem movement_vertical_formula :
    (∀ (input : Input) (dt : ℚ),
      (movement input dt).y = dt * 10 * (verticalAccumulator input dt - 10)) ∧
    (∀ input : Input, input.just_pressed .W = false → input.just_pressed .S = false →
      (movement input 1).y = -100) := by
  constructor
  · intro input dt
    rw [movement_eq]
  · intro input hW hS
    rw [movement_eq]
    simp [verticalAccumulator, hW, hS]
    norm_num

/-- Witness for C1 at the all-keys-up input and dt = 1. -/
theorem movement_vertical_formula_witness :
    noInput.just_pressed .W = false ∧ noInput.just_pressed .S = false ∧
      (movement noInput 1).y = -100 :=
  ⟨rfl, rfl, movement_vertical_formula.2 noInput rfl rfl⟩

/-- Counterexample to C2: on the frame after a single W edge (dt = 1 both
frames), the code's vertical displacement is -100, while the claimed
persisted accumulator (holding 10 after the jump) would give 0: the
falling formula uses a freshly reset accumulator, not a persisted one. -/
theorem movement_no_persisted_accumulator :
    (movement jumpEdgeInput 1).y = 0 ∧
      movementPersistedStep 0 jumpEdgeInput 1 = (0, 10) ∧
      (movementPersistedStep 10 noInput 1).1 = 0 ∧
      (movement noInput 1).y = -100 ∧
      (movement noInput 1).y ≠ (movementPersistedStep 10 noInput 1).1 := by
  norm_num [movement, movementPersistedStep, jumpEdgeInput, noInput, Prod.ext_iff]

/-- Claim C2 as amended: a jump affects the vertical displacement only on
the edge (the held state is irrelevant to y); on the edge frame with
dt = 1 and no crouch edge the vertical displacement is 0; on subsequent
frames without jump input the accumulator starts from zero again (it is a
per-frame local, not persisted), so the displacement is dt * 10 * (0 - 10). -/
theorem movement_jump_edge_only :
    (∀ (a b : Input) (dt : ℚ), a.just_pressed = b.just_pressed →
      (movement a dt).y = (movement b dt).y) ∧
    (∀ input : Input, input.just_pressed .W = true → input.just_pressed .S = false →
      (movement input 1).y = 0) ∧
    (∀ (input : Input) (dt : ℚ),
      input.just_pressed .W = false → input.just_pressed .S = false →
      (movement input dt).y = dt * 10 * (0 - 10)) := by
  refine ⟨?_, ?_, ?_⟩
  · intro a b dt h
    rw [movement_eq, movement_eq]
    simp [verticalAccumulator, h]
  · intro input hW hS
    rw [movement_eq]
    simp [verticalAccumulator, hW, hS]
  · intro input dt hW hS
    rw [movement_eq]
    simp [verticalAccumulator, hW, hS]

/-- Witness for the amended C2: the jump-edge frame and the following
no-edge frame, both at dt = 1. -/
theorem movement_jump_edge_only_witness :
    (movement jumpEdgeInput 1).y = (movement jumpEdgeInput 1).y ∧
      (movement jumpEdgeInput 1).y = 0 ∧
      (movement noInput 1).y = 1 * 10 * (0 - 10) :=
  ⟨movement_jump_edge_only.1 jumpEdgeInput jumpEdgeInput 1 rfl,
    movement_jump_edge_only.2.1 jumpEdgeInput rfl rfl,
    movement_jump_edge_only.2.2 noInput 1 rfl rfl⟩

/-- Claim C4: each horizontal axis of `movement` is the additive sum of its
two key contributions for every dt, so holding Left and Right together
yields x = dt * 5 + dt * 5 * (-1) = 0, and likewise Up/Down on z:
cancellation is by additive accumulation, not mutual exclusion. -/
theorem movement_axes_additive :
    (∀ (input : Input) (dt : ℚ),
      (movement input dt).x = (if input.pressed .Right then dt * 5 else 0) +
          (if input.pressed .Left then dt * 5 * (-1) else 0) ∧
        (movement input dt).z = (if input.pressed .Down then dt * 5 else 0) +
          (if input.pressed .Up then dt * 5 * (-1) else 0)) ∧
    (∀ (input : Input) (dt : ℚ), input.pressed .Left = true → input.pressed .Right = true →
      (movement input dt).x = dt * 5 + dt * 5 * (-1) ∧ (movement input dt).x = 0) ∧
    (∀ (input : Input) (dt : ℚ), input.pressed .Up = true → input.pressed .Down = true →
      (movement input dt).z = dt * 5 + dt * 5 * (-1) ∧ (movement input dt).z = 0) := by
  refine ⟨?_, ?_, ?_⟩
  · intro input dt
    rw [movement_eq]
    exact ⟨rfl, rfl⟩
  · intro input dt hL hR
    rw [movement_eq]
    simp [hL, hR]
  · intro input dt hU hD
    rw [movement_eq]
    simp [hU, hD]

/-- Witness for C4: all four direction keys held, dt = 2. -/
theorem movement_axes_additive_witness :
    (movement allDirsInput 2).x = 2 * 5 + 2 * 5 * (-1) ∧
      (movement allDirsInput 2).x = 0 ∧
      (movement allDirsInput 2).z = 2 * 5 + 2 * 5 * (-1) ∧
      (movement allDirsInput 2).z = 0 :=
  ⟨(movement_axes_additive.2.1 allDirsInput 2 rfl rfl).1,
    (movement_axes_additive.2.1 allDirsInput 2 rfl rfl).2,
    (movement_axes_additive.2.2 allDirsInput 2 rfl rfl).1,
    (movement_axes_additive.2.2 allDirsInput 2 rfl rfl).2⟩

/-- Counterexample to C3: on a successful build, the dynamic falling box is
given `Collider.ball 1`, which is not a cuboid (cube) collider. -/
theorem dynamic_box_not_cube_collider :
    (expectations (some sampleMesh) sampleConv).map (fun s => s.dynamicBox.collider) =
        Except.ok (some (Collider.ball 1)) ∧
      (expectations (some sampleMesh) sampleConv).map
          (fun s => s.dynamicBox.collider.elim false Collider.isCuboid) =
        Except.ok false := by
  exact ⟨rfl, rfl⟩

/-- Claim C3 as amended: the Scene Builder creates the dynamic falling body
above the origin (at (0, 5, 0)) with a ball collider of radius 1.0 — not a
cube collider — and a gravity scale of 0.5, strictly between 0 and 1. -/
theorem dynamic_box_spawn (floorAsset : Option Mesh) (conv : Mesh → Option Collider)
    (s : Scene) (h : expectations floorAsset conv = Except.ok s) :
    s.dynamicBox.transform = some ⟨0, 5, 0⟩ ∧
      (∀ v, s.dynamicBox.transform = some v → 0 < v.y ∧ v.x = 0 ∧ v.z = 0) ∧
      s.dynamicBox.rigidBody = some RigidBodyKind.Dynamic ∧
      s.dynamicBox.collider = some (Collider.ball 1) ∧
      s.dynamicBox.collider.elim false Collider.isCuboid = false ∧
      s.dynamicBox.gravityScale = some (1 / 2) ∧
      (∀ g, s.dynamicBox.gravityScale = some g → 0 < g ∧ g < 1) := by
  cases floorAsset with
  | none => simp [expectations] at h
  | some m =>
    cases hc : conv m with
    | none => simp [expectations, hc] at h
    | some c =>
      simp [expectations, hc] at h
      subst h
      refine ⟨rfl, ?_, rfl, rfl, rfl, by norm_num, ?_⟩
      · intro v hv
        simp at hv
        subst hv
        norm_num
      · intro g hg
        simp at hg
        subst hg
        norm_num

/-- Witness for the amended C3 at a resolvable mesh and a successful
trimesh conversion. -/
theorem dynamic_box_spawn_witness :
    ∃ s, expectations (some sampleMesh) sampleConv = Except.ok s ∧
      s.dynamicBox.collider = some (Collider.ball 1) ∧
      s.dynamicBox.gravityScale = some (1 / 2) := by
  cases hs : expectations (some sampleMesh) sampleConv with
  | error e => exact absurd hs (by simp [expectations, sampleConv])
  | ok s =>
    refine ⟨s, rfl, (dynamic_box_spawn (some sampleMesh) sampleConv s hs).2.2.2.1,
      (dynamic_box_spawn (some sampleMesh) sampleConv s hs).2.2.2.2.2.1⟩

/-- Claim C5: configuration errors are fatal — an unresolvable floor mesh
asset, a trimesh conversion yielding no shape, and a controller query not
matching exactly one body each make the corresponding system return a
diagnostic error instead of continuing. -/
theorem config_errors_fatal :
    (∀ conv : Mesh → Option Collider, ∃ msg, expectations none conv = Except.error msg) ∧
      (∀ m : Mesh, ∃ msg, expectations (some m) (fun _ => none) = Except.error msg) ∧
      (∀ (controllers : List KinematicCharacterController) (input : Input) (dt : ℚ),
        controllers.length ≠ 1 →
          ∃ msg, movement_system controllers input dt = Except.error msg) := by
  refine ⟨fun conv => ⟨_, rfl⟩, fun m => ⟨_, rfl⟩, ?_⟩
  intro controllers input dt h
  match controllers with
  | [] => exact ⟨_, rfl⟩
  | [a] => simp at h
  | a :: b :: t => exact ⟨_, rfl⟩

/-- Witness for C5: zero controllers at controller-update time. -/
theorem config_errors_fatal_witness :
    ([] : List KinematicCharacterController).length ≠ 1 ∧
      ∃ msg, movement_system [] noInput 1 = Except.error msg :=
  ⟨by decide, config_errors_fatal.2.2 [] noInput 1 (by decide)⟩

/-- The `MyStates` gating enum from the source (the spec calls the values
Loading, Ready, InGame). -/
inductive MyStates
  | AssetLoading
  | Next
  | InGame
  deriving DecidableEq, Repr

/-- Position of a state in the fixed forward ordering
AssetLoading < Next < InGame. -/
def stateIndex : MyStates → ℕ
  | .AssetLoading => 0
  | .Next => 1
  | .InGame => 2

/-- Result of an attempted load-state transition: the resulting state and
an optional warning. -/
structure TransitionResult where
  state : MyStates
  warning : Option String
  deriving DecidableEq, Repr

/-- Modelled from the spec: `transitionTo` of the State Machine component
is not present under src (the source only declares the `MyStates` enum and
delegates transitions to the engine); per the spec it succeeds exactly when
the target immediately follows the current state in the forward ordering,
and otherwise is a no-op that logs a warning. -/
def transitionTo (current next : MyStates) : TransitionResult :=
  if stateIndex next = stateIndex current + 1 then
    ⟨next, none⟩
  else
    ⟨current, some "invalid state transition: target does not follow current state"⟩

/-- Claim C6: a transition whose target does not immediately follow the
current state in the forward ordering (backward or skipping) is rejected as
a no-op with a warning: `transitionTo` leaves the state unchanged and
reports the warning; in particular Next→AssetLoading (backward) and
AssetLoading→InGame (skip) are both rejected. -/
theorem transition_out_of_order_rejected :
    (∀ current next : MyStates, stateIndex next ≠ stateIndex current + 1 →
      (transitionTo current next).state = current ∧
        (transitionTo current next).warning.isSome = true) ∧
      (transitionTo .Next .AssetLoading).state = MyStates.Next ∧
      (transitionTo .Next .AssetLoading).warning.isSome = true ∧
      (transitionTo .AssetLoading .InGame).state = MyStates.AssetLoading ∧
      (transitionTo .AssetLoading .InGame).warning.isSome = true := by
  refine ⟨?_, rfl, rfl, rfl, rfl⟩
  intro current next h
  simp [transitionTo, h]

/-- Witness for C6: the backward transition Next→AssetLoading. -/
theorem transition_out_of_order_rejected_witness :
    stateIndex MyStates.AssetLoading ≠ stateIndex MyStates.Next + 1 ∧
      (transitionTo .Next .AssetLoading).state = MyStates.Next ∧
      (transitionTo .Next .AssetLoading).warning.isSome = true :=
  ⟨by decide, transition_out_of_order_rejected.1 .Next .AssetLoading (by decide)⟩

/-- App-level gating state built from the registrations in `main`: the
current `MyStates` value and how many floor bodies the OnEnter(Next)
handler `expectations` has spawned. -/
structure AppState where
  state : MyStates
  floorSpawns : ℕ
  deriving DecidableEq, Repr

/-- One engine frame under `main`'s registrations: the loading state
continues AssetLoading→Next when the asset-collection completion signal is
seen, running the OnEnter(Next) system `expectations` (which spawns the
floor) exactly on that transition; in every other situation only the
Update systems run, and they neither change the state nor spawn a floor. -/
def appFrame (s : AppState) (loadingDone : Bool) : AppState :=
  if s.state = .AssetLoading ∧ loadingDone then
    ⟨.Next, s.floorSpawns + 1⟩
  else
    s

/-- A whole run of the app from its initial state over a sequence of
per-frame completion signals. -/
def appRun (signals : List Bool) : AppState :=
  signals.foldl appFrame ⟨.AssetLoading, 0⟩

/-- Gating invariant: at most one floor spawn ever, and none before
leaving AssetLoading. -/
def appInv (s : AppState) : Prop :=
  (s.state = .AssetLoading → s.floorSpawns = 0) ∧ s.floorSpawns ≤ 1

/-- `appFrame` preserves the gating invariant. -/
theorem appFrame_inv (s : AppState) (b : Bool) (h : appInv s) : appInv (appFrame s b) := by
  obtain ⟨h0, h1⟩ := h
  by_cases hc : s.state = .AssetLoading ∧ b = true
  · simp [appFrame, hc.1, hc.2, appInv, h0 hc.1]
  · have : appFrame s b = s := by
      simp only [appFrame, ite_eq_right_iff]
      intro hcon
      exact absurd ⟨hcon.1, hcon.2⟩ hc
    rw [this]
    exact ⟨h0, h1⟩

/-- Claim C7: the Scene Builder runs at most once per process lifetime —
over every signal sequence, including duplicated completion signals, the
floor is spawned at most once; and once the state has left AssetLoading a
frame never re-runs the enter handler (it leaves the app state unchanged). -/
theorem scene_builder_at_most_once :
    (∀ signals : List Bool, (appRun signals).floorSpawns ≤ 1) ∧
      (∀ (s : AppState) (b : Bool), s.state ≠ .AssetLoading → appFrame s b = s) := by
  constructor
  · intro signals
    have key : ∀ (l : List Bool) (s : AppState), appInv s → appInv (l.foldl appFrame s) := by
      intro l
      induction l with
      | nil => intro s h; exact h
      | cons b t ih => intro s h; exact ih _ (appFrame_inv s b h)
    exact (key signals ⟨.AssetLoading, 0⟩ ⟨fun _ => rfl, Nat.zero_le 1⟩).2
  · intro s b h
    simp only [appFrame, ite_eq_right_iff]
    intro hcon
    exact absurd hcon.1 h

/-- Witness for C7: a duplicated completion signal still spawns the floor
only once, and a frame in the Next state is a no-op on the app state. -/
theorem scene_builder_at_most_once_witness :
    (appRun [true, true, true]).floorSpawns ≤ 1 ∧
      appFrame ⟨.Next, 1⟩ true = ⟨.Next, 1⟩ :=
  ⟨scene_builder_at_most_once.1 [true, true, true],
    scene_builder_at_most_once.2 ⟨.Next, 1⟩ true (by decide)⟩

/-- Decimal digits of a natural number left-padded with zeros to width d. -/
def natPad (n d : ℕ) : String :=
  let s := Nat.repr n
  String.mk (List.replicate (d - s.length) '0') ++ s

/-- Fixed-point decimal rendering with d fractional digits (round to
nearest), embedding the Rust format specifier with precision d. -/
def formatFixed (q : ℚ) (d : ℕ) : String :=
  let scaled : ℤ := Int.floor (q * (10 : ℚ) ^ d + 1 / 2)
  let sign := if scaled < 0 then "-" else ""
  let m := scaled.natAbs
  sign ++ Nat.repr (m / 10 ^ d) ++ "." ++ natPad (m % 10 ^ d) d

/-- The overlay line built by change_text_system's format string: fps to
one decimal place, frame time to three decimals. -/
def overlayLine (fps frame_time : ℚ) : String :=
  "This text changes in the bottom right - " ++ formatFixed fps 1 ++ " fps, " ++
    formatFixed frame_time 3 ++ " ms/frame"

/-- A diagnostic entry of the diagnostics store, exposing an optionally
present smoothed sample. -/
structure Diagnostic where
  smoothed : Option ℚ
  deriving DecidableEq, Repr

/-- The DiagnosticsStore resource restricted to the two metrics the
overlay updater reads: FPS and FRAME_TIME (each optionally registered). -/
structure DiagnosticsStore where
  fps : Option Diagnostic
  frame_time : Option Diagnostic
  deriving DecidableEq, Repr

/-- One section of a Text component. -/
structure TextSection where
  value : String
  deriving DecidableEq, Repr

/-- A Text component: a list of sections. -/
structure Text where
  sections : List TextSection
  deriving DecidableEq, Repr

/-- In-place overwrite of `text.sections[0].value`; the out-of-bounds
panic of the index expression is embedded as an error. -/
def setSection0 (t : Text) (v : String) : Except String Text :=
  match t.sections with
  | [] => Except.error "index out of bounds: the len is 0 but the index is 0"
  | s :: rest => Except.ok ⟨{ s with value := v } :: rest⟩

/-- The per-text body of `change_text_system`: a zero-initialised fps
overwritten by the smoothed FPS sample when available, the instantaneous
delta overwritten by the smoothed frame-time sample when available, then
the overlay line written into section 0. -/
def change_text_system (dt : ℚ) (diagnostics : DiagnosticsStore) (text : Text) :
    Except String Text :=
  let fps : ℚ := 0
  let fps := match diagnostics.fps with
    | some d =>
      match d.smoothed with
      | some fps_smoothed => fps_smoothed
      | none => fps
    | none => fps
  let frame_time := dt
  let frame_time := match diagnostics.frame_time with
    | some d =>
      match d.smoothed with
      | some frame_time_smoothed => frame_time_smoothed
      | none => frame_time
    | none => frame_time
  setSection0 text (overlayLine fps frame_time)

/-- Claim C8: each frame the overlay updater uses the smoothed frame-rate
sample when present and 0 otherwise, the smoothed frame-time sample when
present and the instantaneous frame delta otherwise, and overwrites the
first section's string in place (the old value is discarded) with the fps
to one decimal place and the frame time to three decimals. -/
theorem change_text_policy (dt : ℚ) (diagnostics : DiagnosticsStore)
    (s : TextSection) (rest : List TextSection) :
    change_text_system dt diagnostics ⟨s :: rest⟩ =
      Except.ok ⟨⟨overlayLine ((diagnostics.fps.bind Diagnostic.smoothed).getD 0)
        ((diagnostics.frame_time.bind Diagnostic.smoothed).getD dt)⟩ :: rest⟩ := by
  rcases diagnostics with ⟨f, ft⟩
  rcases f with _ | ⟨_ | fs⟩ <;> rcases ft with _ | ⟨_ | fts⟩ <;>
    simp [change_text_system, setSection0]

/-- A UI entity: its optional Text component and whether it carries the
TextChanges marker component. -/
structure Entity where
  text : Option Text
  textChanges : Bool
  deriving DecidableEq, Repr

/-- The action of `change_text_system`'s query on one entity: the query
matches entities having a Text component together With TextChanges, and
every other entity is left untouched. -/
def updateEntity (dt : ℚ) (diagnostics : DiagnosticsStore) (e : Entity) :
    Except String Entity :=
  match e.text, e.textChanges with
  | some t, true =>
    match change_text_system dt diagnostics t with
    | Except.error msg => Except.error msg
    | Except.ok t' => Except.ok { e with text := some t' }
  | _, _ => Except.ok e

/-- `change_text_system` iterated over the whole entity list. -/
def change_text_world (dt : ℚ) (diagnostics : DiagnosticsStore) :
    List Entity → Except String (List Entity)
  | [] => Except.ok []
  | e :: es =>
    match updateEntity dt diagnostics e with
    | Except.error msg => Except.error msg
    | Except.ok e' =>
      match change_text_world dt diagnostics es with
      | Except.error msg => Except.error msg
      | Except.ok es' => Except.ok (e' :: es')

/-- The bottom-left multi-line text block spawned by `infotext_system`
without the TextChanges marker. -/
def bottomLeftEntity : Entity :=
  ⟨some ⟨[⟨"This\ntext has\nline breaks and also a set width in the bottom left"⟩]⟩, false⟩

/-- The two text entities spawned by the `infotext_system` startup system:
the bottom-right one-section overlay with TextChanges, and the bottom-left
block without it. -/
def infotext_system : List Entity :=
  [⟨some ⟨[⟨"This text changes in the bottom right"⟩]⟩, true⟩, bottomLeftEntity]

/-- The per-frame world while gated in the Next state: the UI entities and
the kinematic controller query. -/
structure World where
  entities : List Entity
  controllers : List KinematicCharacterController
  deriving DecidableEq, Repr

/-- Inputs consumed by one Update frame. -/
structure FrameInput where
  dt : ℚ
  diagnostics : DiagnosticsStore
  input : Input

/-- One gated Update frame: the `movement` system then the overlay
updater, each run over its own query. -/
def frameStep (f : FrameInput) (w : World) : Except String World :=
  match movement_system w.controllers f.input f.dt with
  | Except.error msg => Except.error msg
  | Except.ok cs =>
    match change_text_world f.dt f.diagnostics w.entities with
    | Except.error msg => Except.error msg
    | Except.ok es => Except.ok ⟨es, cs⟩

/-- A run of consecutive gated Update frames. -/
def runFrames : List FrameInput → World → Except String World
  | [], w => Except.ok w
  | f :: fs, w =>
    match frameStep f w with
    | Except.error msg => Except.error msg
    | Except.ok w' => runFrames fs w'

/-- Entities without the TextChanges marker pass through the overlay
updater unchanged. -/
theorem updateEntity_unmarked (dt : ℚ) (diagnostics : DiagnosticsStore) (e : Entity)
    (h : e.textChanges = false) : updateEntity dt diagnostics e = Except.ok e := by
  rcases e with ⟨txt, m⟩
  cases m with
  | false => cases txt <;> rfl
  | true => simp at h

/-- The overlay updater preserves unmarked entities at their positions. -/
theorem change_text_world_unmarked (dt : ℚ) (diagnostics : DiagnosticsStore) :
    ∀ es es' : List Entity, change_text_world dt diagnostics es = Except.ok es' →
      ∀ (i : ℕ) (e : Entity), es.get? i = some e → e.textChanges = false →
        es'.get? i = some e := by
  intro es
  induction es with
  | nil =>
    intro es' h i e hi
    simp [change_text_world] at h
    subst h
    simp at hi
  | cons a t ih =>
    intro es' h i e hi hm
    cases hu : updateEntity dt diagnostics a with
    | error msg => simp [change_text_world, hu] at h
    | ok a' =>
      cases hw : change_text_world dt diagnostics t with
      | error msg => simp [change_text_world, hu, hw] at h
      | ok t' =>
        simp [change_text_world, hu, hw] at h
        subst h
        cases i with
        | zero =>
          have ha : a = e := by simpa using hi
          subst ha
          have h2 : updateEntity dt diagnostics a = Except.ok a :=
            updateEntity_unmarked dt diagnostics a hm
          rw [h2] at hu
          injection hu with h3
          subst h3
          rfl
        | succ n =>
          rw [List.get?_cons_succ] at hi ⊢
          exact ih t' hw n e hi hm

/-- The second overlay entity survives any run of gated frames unchanged. -/
theorem runFrames_bottomLeft :
    ∀ (fs : List FrameInput) (w w' : World), runFrames fs w = Except.ok w' →
      w.entities.get? 1 = some bottomLeftEntity →
        w'.entities.get? 1 = some bottomLeftEntity := by
  intro fs
  induction fs with
  | nil =>
    intro w w' h hw
    simp [runFrames] at h
    subst h
    exact hw
  | cons f t ih =>
    intro w w' h hw
    cases hs : frameStep f w with
    | error msg => simp [runFrames, hs] at h
    | ok w1 =>
      simp [runFrames, hs] at h
      refine ih w1 w' h ?_
      rcases hmv : movement_system w.controllers f.input f.dt with _ | cs
      · simp [frameStep, hmv] at hs
      · rcases hct : change_text_world f.dt f.diagnostics w.entities with _ | es
        · simp [frameStep, hmv, hct] at hs
        · simp [frameStep, hmv, hct] at hs
          subst hs
          exact change_text_world_unmarked f.dt f.diagnostics w.entities es hct 1
            bottomLeftEntity hw rfl

/-- Claim C9: the per-frame overlay updater mutates only entities carrying
the TextChanges marker (all others pass through unchanged), and over any
run of gated frames from the startup world the second overlay entity — the
bottom-left block spawned without TextChanges — is never modified. -/
theorem overlay_mutates_marked_only :
    (∀ (dt : ℚ) (diagnostics : DiagnosticsStore) (e : Entity), e.textChanges = false →
      updateEntity dt diagnostics e = Except.ok e) ∧
      (∀ (cs : List KinematicCharacterController) (fs : List FrameInput) (w : World),
        runFrames fs ⟨infotext_system, cs⟩ = Except.ok w →
          w.entities.get? 1 = some bottomLeftEntity) := by
  constructor
  · exact updateEntity_unmarked
  · intro cs fs w h
    exact runFrames_bottomLeft fs ⟨infotext_system, cs⟩ w h rfl

/-- Witness for C9: the unmarked bottom-left entity passes through one
update untouched, and an empty run preserves it at index 1. -/
theorem overlay_mutates_marked_only_witness :
    updateEntity 1 ⟨none, none⟩ bottomLeftEntity = Except.ok bottomLeftEntity ∧
      (World.mk infotext_system []).entities.get? 1 = some bottomLeftEntity :=
  ⟨overlay_mutates_marked_only.1 1 ⟨none, none⟩ bottomLeftEntity rfl,
    overlay_mutates_marked_only.2 [] [] ⟨infotext_system, []⟩ rfl⟩

/-- Whether an entity respects the spawn discipline that makes the
overlay's section-0 access safe: a marked text entity has exactly one
section. -/
def oneSection (e : Entity) : Bool :=
  if e.textChanges then
    match e.text with
    | some t => t.sections.length == 1
    | none => true
  else true

/-- The overlay update succeeds on any entity respecting the spawn
discipline, and its result still respects it. -/
theorem updateEntity_oneSection (dt : ℚ) (diagnostics : DiagnosticsStore) (e : Entity)
    (h : oneSection e = true) :
    ∃ e', updateEntity dt diagnostics e = Except.ok e' ∧ oneSection e' = true := by
  rcases e with ⟨txt, m⟩
  cases m with
  | false =>
    exact ⟨_, updateEntity_unmarked dt diagnostics ⟨txt, false⟩ rfl, h⟩
  | true =>
    cases txt with
    | none => exact ⟨_, rfl, rfl⟩
    | some t =>
      rcases t with ⟨secs⟩
      match secs, h with
      | [s], _ =>
        obtain ⟨v, hv⟩ :
            ∃ v, change_text_system dt diagnostics ⟨[s]⟩ = Except.ok ⟨[⟨v⟩]⟩ := ⟨_, rfl⟩
        exact ⟨⟨some ⟨[⟨v⟩]⟩, true⟩, by simp [updateEntity, hv], rfl⟩

/-- Under the spawn discipline the whole overlay pass succeeds and
preserves the discipline. -/
theorem change_text_world_oneSection (dt : ℚ) (diagnostics : DiagnosticsStore) :
    ∀ es : List Entity, (∀ e ∈ es, oneSection e = true) →
      ∃ es', change_text_world dt diagnostics es = Except.ok es' ∧
        ∀ e ∈ es', oneSection e = true := by
  intro es
  induction es with
  | nil => exact fun _ => ⟨[], rfl, by simp⟩
  | cons a t ih =>
    intro h
    obtain ⟨a', ha, ha1⟩ := updateEntity_oneSection dt diagnostics a (h a (by simp))
    obtain ⟨t', ht, ht1⟩ := ih fun e he => h e (by simp [he])
    refine ⟨a' :: t', by simp [change_text_world, ha, ht], ?_⟩
    intro e he
    rcases List.mem_cons.mp he with rfl | he'
    · exact ha1
    · exact ht1 e he'

/-- Claim C10: every entity spawned by `infotext_system` with the
TextChanges marker has exactly one text section, and under that discipline
the overlay updater's section-0 access is always in bounds: the pass never
reaches the out-of-bounds error and the discipline is preserved, so the
error branch stays unreachable on every later frame. -/
theorem sections_index_in_bounds :
    (∀ e ∈ infotext_system, oneSection e = true) ∧
      (∀ (dt : ℚ) (diagnostics : DiagnosticsStore) (es : List Entity),
        (∀ e ∈ es, oneSection e = true) →
          ∃ es', change_text_world dt diagnostics es = Except.ok es' ∧
            ∀ e ∈ es', oneSection e = true) :=
  ⟨by decide, change_text_world_oneSection⟩

/-- Witness for C10: the startup entities themselves. -/
theorem sections_index_in_bounds_witness :
    (∀ e ∈ infotext_system, oneSection e = true) ∧
      ∃ es', change_text_world 1 ⟨none, none⟩ infotext_system = Except.ok es' ∧
        ∀ e ∈ es', oneSection e = true :=
  ⟨by decide, sections_index_in_bounds.2 1 ⟨none, none⟩ infotext_system (by decide)⟩

end StatesCollisions
